import Mathlib

/-!
# Verification of the TheTVDb show-metadata provider

A shallow embedding of `src/couchpotato/core/media/show/providers/info/thetvdb.py`
(class `TheTVDb`).  Python values flowing through the provider are modelled by the
`Value` type; Python exceptions by `PyErr` together with `Except`; the external
tvdb client and the host cache are explicit parameters.  Every public operation
returns, besides its result, the updated cache and the number of calls made to
the external client during the operation.
-/

/-- Python exceptions that can arise in the provider code. -/
inductive PyErr where
  | tvdbError
  | ioError
  | valueError
  | typeError
  | keyError
  | unboundLocal
  deriving Repr, DecidableEq

/-- Loosely-typed Python values: strings, ints, booleans, `None`, lists and dicts
(dicts as association lists in insertion order). -/
inductive Value where
  | str  : String → Value
  | int  : Int → Value
  | bool : Bool → Value
  | none : Value
  | list : List Value → Value
  | dict : List (String × Value) → Value
  deriving Repr

/-- Python truthiness of a `Value`. -/
def truthy : Value → Bool
  | Value.str s => !(s == "")
  | Value.int n => !(n == 0)
  | Value.bool b => b
  | Value.none => false
  | Value.list l => !l.isEmpty
  | Value.dict d => !d.isEmpty

/-- Truthiness of a Python string-or-`None` value. -/
def optTruthy : Option String → Bool
  | some s => !(s == "")
  | Option.none => false

/-- First binding of key `k` in an association list (Python dict lookup). -/
def lookupKey (l : List (String × Value)) (k : String) : Option Value :=
  match l with
  | [] => Option.none
  | kv :: rest => if kv.1 == k then some kv.2 else lookupKey rest k

/-- `x or None` on a Python string-or-`None`: the empty string collapses to `None`. -/
def pyOrNone : Option String → Option String
  | some s => if s == "" then Option.none else some s
  | Option.none => Option.none

/-- `x or u''` on a Python string-or-`None`. -/
def pyOrEmpty : Option String → String
  | some s => s
  | Option.none => ""

/-- A string-or-`None` as a `Value` (`''` stays a falsy string). -/
def optStrVal : Option String → Value
  | some s => Value.str s
  | Option.none => Value.none

/-- `x or None` as a `Value`: both `None` and `''` become `Value.none`. -/
def optNoneVal (o : Option String) : Value :=
  match pyOrNone o with
  | some s => Value.str s
  | Option.none => Value.none

/-- An int-or-`None` as a `Value`. -/
def optIntVal : Option Int → Value
  | some n => Value.int n
  | Option.none => Value.none

/-- `'%s' % x` for a string-or-`None`: `None` prints as `"None"`. -/
def optFmt : Option String → String
  | some s => s
  | Option.none => "None"

/-- The value of a list of decimal digit characters. -/
def digitsToNat (l : List Char) : Nat :=
  l.foldl (fun a c => a * 10 + (c.toNat - 48)) 0

/-- A non-empty all-digit character list, or nothing. -/
def digits? (l : List Char) : Option Nat :=
  if !l.isEmpty && l.all Char.isDigit then some (digitsToNat l) else Option.none

/-- Python `int(s)` on a string: optional surrounding whitespace, optional sign,
then decimal digits; `Option.none` when `int` would raise `ValueError`. -/
def pyInt? (s : String) : Option Int :=
  let t := (((s.toList.dropWhile Char.isWhitespace).reverse.dropWhile
    Char.isWhitespace).reverse)
  match t with
  | '-' :: rest => (digits? rest).map (fun n => -(n : Int))
  | '+' :: rest => (digits? rest).map (fun n => (n : Int))
  | _ => (digits? t).map (fun n => (n : Int))

/-- Helper for `pySplit`: split a character list on a separator character,
keeping empty segments, as Python `str.split(sep)` does. -/
def splitCharAux (c : Char) : List Char → List (List Char)
  | [] => [[]]
  | x :: xs =>
    let rest := splitCharAux c xs
    if x == c then [] :: rest
    else
      match rest with
      | [] => [[x]]
      | y :: ys => (x :: y) :: ys

/-- Python `s.split(c)` for a single-character separator: all segments are kept,
including empty ones, and the result is never the empty list. -/
def pySplit (c : Char) (s : String) : List String :=
  (splitCharAux c s.toList).map List.asString

/-- Python `s.strip('|')`: drop leading and trailing `'|'` characters only. -/
def pyStripPipe (s : String) : String :=
  List.asString (((s.toList.dropWhile (fun c => c == '|')).reverse.dropWhile
    (fun c => c == '|')).reverse)

/-- `datetime.strptime(s, '%Y-%m-%d').year`: `Option.none` when parsing fails
(the provider catches the exception and defaults the year to `None`). -/
def parseYear (s : String) : Option Int :=
  match pySplit '-' s with
  | [y, m, d] =>
    match digits? y.toList, digits? m.toList, digits? d.toList with
    | some yn, some mn, some dn =>
      if 1 ≤ yn ∧ yn ≤ 9999 ∧ 1 ≤ mn ∧ mn ≤ 12 ∧ 1 ≤ dn ∧ dn ≤ 31 then
        some (yn : Int)
      else Option.none
    | _, _, _ => Option.none
  | _ => Option.none

/-- Modelled from the spec: `simplifyString` (from the host's encoding helpers,
not under `src/`); the spec says `search` "normalizes `query` into a search
string".  Modelled as lowercasing and keeping only alphanumerics and spaces. -/
def simplifyString (s : String) : String :=
  List.asString ((s.toList.map Char.toLower).filter
    (fun c => c.isAlphanum || c == ' '))

/-- Modelled from the spec: `toUnicode` (from the host's encoding helpers, not
under `src/`) converts byte strings to unicode text; it is the identity on
already-decoded text. -/
def toUnicode (s : String) : String := s

/-- Modelled from the spec: the host's keyed cache (`getCache`/`setCache` from
the plugin base, not under `src/`); the spec gives `get(key) -> optional cached
value` and `set(key, value)` with plain string keys. -/
structure Cache where
  entries : List (String × Value)
  deriving Repr

/-- Cache lookup: the most recently set value for the key, if any. -/
def Cache.get (c : Cache) (k : String) : Option Value :=
  lookupKey c.entries k

/-- Cache update: bind `k` to `v`, shadowing any earlier binding. -/
def Cache.set (c : Cache) (k : String) (v : Value) : Cache :=
  ⟨(k, v) :: c.entries⟩

/-- The empty cache. -/
def emptyCache : Cache := ⟨[]⟩

/-- A summary record from the client's name search (`Tvdb.search`), per the
shape documented in `TheTVDb.search`'s docstring: an integer `id` plus the
fields read during alias harvesting. -/
structure SearchResult where
  id : Int
  seriesname : String
  aliasnames : Option String
  deriving Repr

/-- One entry of `show.data['_banners']['season']['season']`, with the fields
read by `TheTVDb._parseSeason`. -/
structure Banner where
  season : Option String
  bannertype : String
  bannertype2 : String
  bannerpath : Option String
  deriving Repr

/-- A raw episode dict from the client.  `id` is always present (it is accessed
directly); the remaining fields are read with `.get(...)` and are modelled as
`Option String`, `Option.none` covering an absent or `None` field. -/
structure RawEpisode where
  id : String
  filename : Option String := Option.none
  seasonnumber : Option String := Option.none
  episodenumber : Option String := Option.none
  overview : Option String := Option.none
  firstaired : Option String := Option.none
  episodename : Option String := Option.none
  imdb_id : Option String := Option.none
  combined_episodenumber : Option String := Option.none
  absolute_number : Option String := Option.none
  combined_season : Option String := Option.none
  productioncode : Option String := Option.none
  seriesid : Option String := Option.none
  seasonid : Option String := Option.none
  thumb_added : Option String := Option.none
  thumb_height : Option String := Option.none
  thumb_width : Option String := Option.none
  rating : Option String := Option.none
  ratingcount : Option String := Option.none
  epimgflag : Option String := Option.none
  dvd_episodenumber : Option String := Option.none
  dvd_discid : Option String := Option.none
  dvd_chapter : Option String := Option.none
  dvd_season : Option String := Option.none
  tms_export : Option String := Option.none
  writer : Option String := Option.none
  director : Option String := Option.none
  gueststars : Option String := Option.none
  lastupdated : Option String := Option.none
  language : Option String := Option.none
  deriving Repr

/-- A raw show object from the client (`tvdb_api.Show`): the directly-accessed
string fields, the seasons (`show.items()`, season number paired with the
season's episodes `season.values()`), and the season banner metadata
(`Option.none` when any lookup into `show.data['_banners']` raises, which
`_parseSeason` swallows with a bare `except`). -/
structure RawShow where
  id : Option String := Option.none
  seriesname : Option String := Option.none
  poster : Option String := Option.none
  fanart : Option String := Option.none
  genre : Option String := Option.none
  firstaired : Option String := Option.none
  imdb_id : Option String := Option.none
  zap2it_id : Option String := Option.none
  seriesid : Option String := Option.none
  network : Option String := Option.none
  networkid : Option String := Option.none
  airs_dayofweek : Option String := Option.none
  airs_time : Option String := Option.none
  runtime : Option String := Option.none
  contentrating : Option String := Option.none
  rating : Option String := Option.none
  ratingcount : Option String := Option.none
  actors : Option String := Option.none
  lastupdated : Option String := Option.none
  status : Option String := Option.none
  language : Option String := Option.none
  seasons : List (Int × List RawEpisode) := []
  seasonBanners : Option (List Banner) := Option.none
  deriving Repr

/-- The external show-database client (`tvdb_api.Tvdb`): name search
(`self.tvdb.search(...)`) and lookup by id (`self.tvdb[...]`).  A `.error`
result models the client raising that exception. -/
structure Client where
  searchFn : Option String → Except PyErr (List SearchResult)
  getFn : Int → Except PyErr RawShow

/-- The exception classes named in the provider's `except` clauses:
`tvdb_exceptions.tvdb_error` and `IOError`. -/
def isClientErr : PyErr → Bool
  | PyErr.tvdbError => true
  | PyErr.ioError => true
  | _ => false

/-- Python `n == v` for an int against an arbitrary value (int-int comparison;
`False` across types, as in Python 2 for int vs. string). -/
def eqIntValue (n : Int) : Value → Bool
  | Value.int m => n == m
  | _ => false

/-- Keep only the truthy-valued entries of a record
(`dict((k, v) for k, v in d.iteritems() if v)`). -/
def filterTruthy (l : List (String × Value)) : List (String × Value) :=
  l.filter (fun kv => truthy kv.2)

/-- Append strings to a list value (`show_data['titles'].append(...)` repeated);
non-list values are left unchanged (unreachable: `titles` is always a list). -/
def listAppendStrs : Value → List String → Value
  | Value.list l, names => Value.list (l ++ names.map Value.str)
  | v, _ => v

/-- Mutate the `titles` entry of a record by appending alias names. -/
def appendTitles (rec : List (String × Value)) (names : List String) :
    List (String × Value) :=
  rec.map (fun kv => if kv.1 == "titles" then (kv.1, listAppendStrs kv.2 names) else kv)

/-- The alias-harvesting loop of `TheTVDb._parseShow`: for each search result
whose `id` equals the record's `id` and which carries truthy `aliasnames`, the
pipe-split alias names are appended to the record's `titles`.  Reading
`show_data['id']` when the key was filtered out raises `KeyError`, which no
enclosing handler catches. -/
def aliasFold (rec : List (String × Value)) :
    List SearchResult → Except PyErr (List (String × Value))
  | [] => Except.ok rec
  | si :: rest =>
    match lookupKey rec "id" with
    | Option.none => Except.error PyErr.keyError
    | some v =>
      if eqIntValue si.id v && optTruthy si.aliasnames then
        aliasFold (appendTitles rec (pySplit '|' (si.aliasnames.getD ""))) rest
      else
        aliasFold rec rest

/-- The literal `show_data` dict built by `TheTVDb._parseShow`, in source
order, before the truthiness filter. -/
def parseShowBase (sh : RawShow) : List (String × Value) :=
  let poster := pyOrNone sh.poster
  let backdrop := pyOrNone sh.fanart
  let genres : List String :=
    match sh.genre with
    | Option.none => []
    | some g => pySplit '|' (pyStripPipe g)
  let year : Option Int :=
    match sh.firstaired with
    | Option.none => Option.none
    | some d => parseYear d
  let idv : Option Int := sh.id.bind pyInt?
  [ ("id", optIntVal idv),
    ("type", Value.str "show"),
    ("primary_provider", Value.str "thetvdb"),
    ("titles", Value.list [Value.str (pyOrEmpty sh.seriesname)]),
    ("original_title", Value.str (pyOrEmpty sh.seriesname)),
    ("images", Value.dict [
      ("poster", Value.list (match poster with
        | some p => [Value.str p]
        | Option.none => [])),
      ("backdrop", Value.list (match backdrop with
        | some b => [Value.str b]
        | Option.none => [])),
      ("poster_original", Value.list []),
      ("backdrop_original", Value.list []) ]),
    ("year", optIntVal year),
    ("genres", Value.list (genres.map Value.str)),
    ("imdb", optNoneVal sh.imdb_id),
    ("zap2it_id", optNoneVal sh.zap2it_id),
    ("seriesid", optNoneVal sh.seriesid),
    ("network", optNoneVal sh.network),
    ("networkid", optNoneVal sh.networkid),
    ("airs_dayofweek", optNoneVal sh.airs_dayofweek),
    ("airs_time", optNoneVal sh.airs_time),
    ("firstaired", optNoneVal sh.firstaired),
    ("released", optNoneVal sh.firstaired),
    ("runtime", optNoneVal sh.runtime),
    ("contentrating", optNoneVal sh.contentrating),
    ("rating", optNoneVal sh.rating),
    ("ratingcount", optNoneVal sh.ratingcount),
    ("actors", optNoneVal sh.actors),
    ("lastupdated", optNoneVal sh.lastupdated),
    ("status", optNoneVal sh.status),
    ("language", optNoneVal sh.language) ]

/-- `TheTVDb._parseShow`: build the record, drop falsy fields, then harvest
alias titles through a secondary client search (whose client-level failures are
caught and logged; other exceptions, such as the `KeyError` from a filtered-out
`id`, escape).  Returns the result (or escaped exception) and the number of
client calls made. -/
def parseShow (client : Client) (sh : RawShow) : Except PyErr Value × Nat :=
  let base := filterTruthy (parseShowBase sh)
  match client.searchFn sh.seriesname with
  | Except.error e =>
    if isClientErr e then (Except.ok (Value.dict base), 1) else (Except.error e, 1)
  | Except.ok raw =>
    if raw.isEmpty then (Except.ok (Value.dict base), 1)
    else
      match aliasFold base raw with
      | Except.ok rec => (Except.ok (Value.dict rec), 1)
      | Except.error e => (Except.error e, 1)

/-- `TheTVDb._parseSeason` (pure: makes no client calls).  `number` is the
season number from `show.items()`; the season dict itself is not read. -/
def parseSeason (sh : RawShow) (number : Int) : Value :=
  let title := toUnicode (pyOrEmpty sh.seriesname ++ " - Season " ++ toString number)
  let poster : List Value :=
    match sh.seasonBanners with
    | Option.none => []
    | some bs =>
      match bs.find? (fun b => b.season == some (toString number)
          && b.bannertype == "season" && b.bannertype2 == "season") with
      | some b => [optStrVal b.bannerpath]
      | Option.none => []
  let idv : Value :=
    match sh.id with
    | some s => Value.str (s ++ ":" ++ toString number)
    | Option.none => Value.none
  Value.dict (filterTruthy
    [ ("id", idv),
      ("type", Value.str "season"),
      ("primary_provider", Value.str "thetvdb"),
      ("titles", Value.list [Value.str title]),
      ("original_title", Value.str title),
      ("via_thetvdb", Value.bool true),
      ("parent_identifier", optNoneVal sh.id),
      ("seasonnumber", Value.str (toString number)),
      ("images", Value.dict [
        ("poster", Value.list poster),
        ("backdrop", Value.list []),
        ("poster_original", Value.list []),
        ("backdrop_original", Value.list []) ]),
      ("year", Value.none),
      ("genres", Value.none),
      ("imdb", Value.none) ])

/-- `TheTVDb._parseEpisode` (pure: makes no client calls). -/
def parseEpisode (sh : RawShow) (ep : RawEpisode) : Value :=
  let poster : List Value :=
    match ep.filename with
    | some s => if s == "" then [] else [Value.str s]
    | Option.none => []
  let plot := pyOrEmpty sh.seriesname ++ " - "
    ++ (ep.seasonnumber.getD "?") ++ "x" ++ (ep.episodenumber.getD "?")
    ++ " - " ++ (ep.overview.getD "")
  let year : Option Int :=
    match ep.firstaired with
    | Option.none => Option.none
    | some d => parseYear d
  let idv : Option Int := pyInt? ep.id
  Value.dict (filterTruthy
    [ ("id", optIntVal idv),
      ("type", Value.str "episode"),
      ("primary_provider", Value.str "thetvdb"),
      ("via_thetvdb", Value.bool true),
      ("thetvdb_id", optIntVal idv),
      ("titles", Value.list [Value.str (ep.episodename.getD "")]),
      ("original_title", Value.str (ep.episodename.getD "")),
      ("images", Value.dict [
        ("poster", Value.list poster),
        ("backdrop", Value.list []),
        ("poster_original", Value.list []),
        ("backdrop_original", Value.list []) ]),
      ("imdb", optStrVal ep.imdb_id),
      ("runtime", Value.none),
      ("released", optStrVal ep.firstaired),
      ("year", optIntVal year),
      ("plot", Value.str plot),
      ("genres", Value.list []),
      ("parent_identifier", optNoneVal sh.id),
      ("seasonnumber", optStrVal ep.seasonnumber),
      ("episodenumber", optStrVal ep.episodenumber),
      ("combined_episodenumber", optStrVal ep.combined_episodenumber),
      ("absolute_number", optStrVal ep.absolute_number),
      ("combined_season", optStrVal ep.combined_season),
      ("productioncode", optStrVal ep.productioncode),
      ("seriesid", optStrVal ep.seriesid),
      ("seasonid", optStrVal ep.seasonid),
      ("firstaired", optStrVal ep.firstaired),
      ("thumb_added", optStrVal ep.thumb_added),
      ("thumb_height", optStrVal ep.thumb_height),
      ("thumb_width", optStrVal ep.thumb_width),
      ("rating", optStrVal ep.rating),
      ("ratingcount", optStrVal ep.ratingcount),
      ("epimgflag", optStrVal ep.epimgflag),
      ("dvd_episodenumber", optStrVal ep.dvd_episodenumber),
      ("dvd_discid", optStrVal ep.dvd_discid),
      ("dvd_chapter", optStrVal ep.dvd_chapter),
      ("dvd_season", optStrVal ep.dvd_season),
      ("tms_export", optStrVal ep.tms_export),
      ("writer", optStrVal ep.writer),
      ("director", optStrVal ep.director),
      ("gueststars", optStrVal ep.gueststars),
      ("lastupdated", optStrVal ep.lastupdated),
      ("language", optStrVal ep.language) ])

/-- The `season_identifier` value of `getSeasonInfo`/`getEpisodeInfo` after the
selector-parsing step: Python `None`, the (skipped) empty string, or the parsed
season number. -/
inductive SeasonSel where
  | noneVal
  | emptyStr
  | num (n : Int)
  deriving Repr, DecidableEq

/-- `season_identifier is not None` after parsing. -/
def selIsNotNone : SeasonSel → Bool
  | SeasonSel.noneVal => false
  | _ => true

/-- `number == season_identifier` after parsing (int against `''` is `False`). -/
def selEq : SeasonSel → Int → Bool
  | SeasonSel.num n, number => number == n
  | _, _ => false

/-- `'%s' % season_identifier` after parsing. -/
def seasonSelStr : SeasonSel → String
  | SeasonSel.noneVal => "None"
  | SeasonSel.emptyStr => ""
  | SeasonSel.num n => toString n

/-- The selector-parsing step of `TheTVDb.getSeasonInfo`:
`int(season_identifier.split(':')[1])` under a bare `except` that turns any
failure (missing `':'`, unparseable number) into `return False`, while a falsy
selector skips the parse. -/
def seasonSelParse : Option String → Except Unit SeasonSel
  | Option.none => Except.ok SeasonSel.noneVal
  | some s =>
    if s == "" then Except.ok SeasonSel.emptyStr
    else
      match (pySplit ':' s).get? 1 with
      | Option.none => Except.error ()
      | some part =>
        match pyInt? part with
        | some n => Except.ok (SeasonSel.num n)
        | Option.none => Except.error ()

/-- The selector-parsing step of `TheTVDb.getEpisodeInfo`:
`identifier, season_identifier = season_identifier.split(':')` followed by
`int(season_identifier)`, under a bare `except` that turns any failure into
`return None`; a falsy selector skips the parse and leaves both values as they
were. -/
def epSelSplit (identifier : Option String) :
    Option String → Except Unit (Option String × SeasonSel)
  | Option.none => Except.ok (identifier, SeasonSel.noneVal)
  | some s =>
    if s == "" then Except.ok (identifier, SeasonSel.emptyStr)
    else
      match pySplit ':' s with
      | [a, b] =>
        match pyInt? b with
        | some n => Except.ok (some a, SeasonSel.num n)
        | Option.none => Except.error ()
      | _ => Except.error ()

/-- Cache key built by `TheTVDb.search`:
`'thetvdb.cache.%s.%s' % (search_string, limit)`. -/
def searchCacheKey (q : String) (limit : Int) : String :=
  "thetvdb.cache." ++ simplifyString q ++ "." ++ toString limit

/-- Cache key built by `TheTVDb.getShowInfo`: `'thetvdb.cache.%s' % identifier`. -/
def showCacheKey (identifier : String) : String :=
  "thetvdb.cache." ++ identifier

/-- Cache key built by `TheTVDb.getSeasonInfo`:
`'thetvdb.cache.%s.%s' % (identifier, season_identifier)` with the parsed
selector. -/
def seasonCacheKey (identifier : String) (ss : SeasonSel) : String :=
  "thetvdb.cache." ++ identifier ++ "." ++ seasonSelStr ss

/-- Cache key built by `TheTVDb.getEpisodeInfo`:
`'thetvdb.cache.%s.%s.%s' % (identifier, episode_identifier, season_identifier)`
with the possibly-rewritten identifier and the parsed selector. -/
def episodeCacheKey (identifier : Option String) (episode_identifier : Option String)
    (ss : SeasonSel) : String :=
  "thetvdb.cache." ++ optFmt identifier ++ "." ++ optFmt episode_identifier
    ++ "." ++ seasonSelStr ss

/-- `result = self.getCache(cache_key) or {}`. -/
def cacheOrEmptyDict (cache : Cache) (k : String) : Value :=
  match cache.get k with
  | some v => if truthy v then v else Value.dict []
  | Option.none => Value.dict []

/-- `int(identifier)` on a string-or-`None` identifier: `None` raises
`TypeError`, a non-numeric string raises `ValueError`. -/
def pyIntOfOpt : Option String → Except PyErr Int
  | Option.none => Except.error PyErr.typeError
  | some s =>
    match pyInt? s with
    | some n => Except.ok n
    | Option.none => Except.error PyErr.valueError

/-- `TheTVDb.isDisabled`: when the API key is empty it logs an error and
evaluates the bare expression `True`; otherwise it evaluates the bare
expression `False`.  Neither branch has a `return`, so the Python function
returns `None` in every case. -/
def isDisabled (api_key : String) : Value :=
  if api_key == "" then
    Value.none
  else
    Value.none

/-- `TheTVDb.getShow`: fetch a show by id.  Client-level errors are caught and
logged (returning `None`); the uncaught `ValueError` from `int(identifier)`
escapes.  Also returns the number of client calls made. -/
def getShow (client : Client) (identifier : String) :
    Except PyErr (Option RawShow) × Nat :=
  match pyInt? identifier with
  | Option.none => (Except.error PyErr.valueError, 0)
  | some n =>
    match client.getFn n with
    | Except.error e =>
      if isClientErr e then (Except.ok Option.none, 1) else (Except.error e, 1)
    | Except.ok sh => (Except.ok (some sh), 1)

/-- `TheTVDb.getShowInfo`: result, updated cache, and number of client calls. -/
def getShowInfo (client : Client) (cache : Cache) (identifier : Option String) :
    Except PyErr Value × Cache × Nat :=
  if !optTruthy identifier then (Except.ok Value.none, cache, 0)
  else
    let idf := pyOrEmpty identifier
    let cache_key := showCacheKey idf
    let result0 := cacheOrEmptyDict cache cache_key
    if truthy result0 then (Except.ok result0, cache, 0)
    else
      match getShow client idf with
      | (Except.error e, c) => (Except.error e, cache, c)
      | (Except.ok Option.none, c) => (Except.ok (Value.dict []), cache, c)
      | (Except.ok (some sh), c) =>
        match parseShow client sh with
        | (Except.error e, pc) => (Except.error e, cache, c + pc)
        | (Except.ok v, pc) => (Except.ok v, cache.set cache_key v, c + pc)

/-- The season loop of `TheTVDb.getSeasonInfo`: a matching season returns the
single parsed record early (`.error`); otherwise every season is appended. -/
def seasonLoop (sh : RawShow) (ss : SeasonSel) :
    List (Int × List RawEpisode) → List Value → Except Value (List Value)
  | [], acc => Except.ok acc
  | (number, _) :: rest, acc =>
    if selIsNotNone ss && selEq ss number then
      Except.error (parseSeason sh number)
    else
      seasonLoop sh ss rest (acc ++ [parseSeason sh number])

/-- `TheTVDb.getSeasonInfo`: result, updated cache, and number of client calls.
When the client raises a client-level error during the show lookup, the
`except` handler's log call reads the local variable `show` that the failed
`try` never assigned, so an `UnboundLocalError` escapes. -/
def getSeasonInfo (client : Client) (cache : Cache) (identifier : Option String)
    (season_identifier : Option String) : Except PyErr Value × Cache × Nat :=
  if !optTruthy identifier then (Except.ok (Value.bool false), cache, 0)
  else
    let idf := pyOrEmpty identifier
    match seasonSelParse season_identifier with
    | Except.error _ => (Except.ok (Value.bool false), cache, 0)
    | Except.ok ss =>
      let cache_key := seasonCacheKey idf ss
      let result0 := cacheOrEmptyDict cache cache_key
      if truthy result0 then (Except.ok result0, cache, 0)
      else
        match pyInt? idf with
        | Option.none => (Except.error PyErr.valueError, cache, 0)
        | some n =>
          match client.getFn n with
          | Except.error e =>
            if isClientErr e then (Except.error PyErr.unboundLocal, cache, 1)
            else (Except.error e, cache, 1)
          | Except.ok sh =>
            match seasonLoop sh ss sh.seasons [] with
            | Except.error single =>
              (Except.ok single, cache.set cache_key single, 1)
            | Except.ok lst =>
              (Except.ok (Value.list lst), cache.set cache_key (Value.list lst), 1)

/-- The inner (episode) loop of `TheTVDb.getEpisodeInfo`: an episode whose `id`
equals the episode selector returns the single parsed record early (`.error`);
otherwise every episode is appended. -/
def epInner (sh : RawShow) (episode_identifier : Option String) :
    List RawEpisode → List Value → Except Value (List Value)
  | [], acc => Except.ok acc
  | ep :: rest, acc =>
    match episode_identifier with
    | some s =>
      if ep.id == toUnicode s then Except.error (parseEpisode sh ep)
      else epInner sh episode_identifier rest (acc ++ [parseEpisode sh ep])
    | Option.none => epInner sh episode_identifier rest (acc ++ [parseEpisode sh ep])

/-- The outer (season) loop of `TheTVDb.getEpisodeInfo`: seasons not matching a
non-`None` selector are skipped with `continue`. -/
def episodeLoop (sh : RawShow) (ss : SeasonSel) (episode_identifier : Option String) :
    List (Int × List RawEpisode) → List Value → Except Value (List Value)
  | [], acc => Except.ok acc
  | (number, season) :: rest, acc =>
    if selIsNotNone ss && !selEq ss number then
      episodeLoop sh ss episode_identifier rest acc
    else
      match epInner sh episode_identifier season acc with
      | Except.error single => Except.error single
      | Except.ok acc2 => episodeLoop sh ss episode_identifier rest acc2

/-- `TheTVDb.getEpisodeInfo`: result, updated cache, and number of client
calls.  As in `getSeasonInfo`, a client-level error during the show lookup
makes the handler's log call read the unassigned local `show`, so an
`UnboundLocalError` escapes; `int(identifier)` can also raise an uncaught
`TypeError` (identifier still `None`) or `ValueError`. -/
def getEpisodeInfo (client : Client) (cache : Cache) (identifier : Option String)
    (season_identifier : Option String) (episode_identifier : Option String) :
    Except PyErr Value × Cache × Nat :=
  if !optTruthy identifier && season_identifier.isNone then
    (Except.ok (Value.bool false), cache, 0)
  else
    match epSelSplit identifier season_identifier with
    | Except.error _ => (Except.ok Value.none, cache, 0)
    | Except.ok (identifier2, ss) =>
      let cache_key := episodeCacheKey identifier2 episode_identifier ss
      let result0 := cacheOrEmptyDict cache cache_key
      if truthy result0 then (Except.ok result0, cache, 0)
      else
        match pyIntOfOpt identifier2 with
        | Except.error e => (Except.error e, cache, 0)
        | Except.ok n =>
          match client.getFn n with
          | Except.error e =>
            if isClientErr e then (Except.error PyErr.unboundLocal, cache, 1)
            else (Except.error e, cache, 1)
          | Except.ok sh =>
            match episodeLoop sh ss episode_identifier sh.seasons [] with
            | Except.error single =>
              (Except.ok single, cache.set cache_key single, 1)
            | Except.ok lst =>
              (Except.ok (Value.list lst), cache.set cache_key (Value.list lst), 1)

/-- The per-result loop of `TheTVDb.search`: fetch each show by id and parse
it, stopping once the incremented counter `nr` equals `limit`.  On a raised
exception the loop reports it along with whether the local `show` had already
been bound (the `except` handler logs `show`, raising `UnboundLocalError` if
the very first fetch failed) and the client calls made so far. -/
def searchLoop (client : Client) (limit : Int) :
    List SearchResult → Int → Bool → List Value → Nat →
    Except (PyErr × Bool × Nat) (List Value × Nat)
  | [], _, _, acc, calls => Except.ok (acc, calls)
  | si :: rest, nr, showBound, acc, calls =>
    match client.getFn si.id with
    | Except.error e => Except.error (e, showBound, calls + 1)
    | Except.ok sh =>
      match parseShow client sh with
      | (Except.error e, pc) => Except.error (e, true, calls + 1 + pc)
      | (Except.ok v, pc) =>
        let nr2 := nr + 1
        if nr2 == limit then Except.ok (acc ++ [v], calls + 1 + pc)
        else searchLoop client limit rest nr2 true (acc ++ [v]) (calls + 1 + pc)

/-- `TheTVDb.search`: result, updated cache, number of client calls, and the
client language configuration after the call (`tvdb_api_parms['language']`,
mutated in place when a different supported language is requested). -/
def search (client : Client) (api_key : String) (valid_languages : List String)
    (parmsLang : String) (cache : Cache) (q : String) (limit : Int)
    (language : String) : Except PyErr Value × Cache × Nat × String :=
  if truthy (isDisabled api_key) then
    (Except.ok (Value.bool false), cache, 0, parmsLang)
  else
    let lang2 :=
      if language ≠ parmsLang ∧ language ∈ valid_languages then language
      else parmsLang
    let search_string := simplifyString q
    let cache_key := searchCacheKey q limit
    let hit :=
      match cache.get cache_key with
      | some v => truthy v
      | Option.none => false
    if hit then
      ((cache.get cache_key).elim (Except.ok Value.none) Except.ok, cache, 0, lang2)
    else
      match client.searchFn (some search_string) with
      | Except.error e =>
        if isClientErr e then (Except.ok (Value.bool false), cache, 1, lang2)
        else (Except.error e, cache, 1, lang2)
      | Except.ok raw =>
        if raw.isEmpty then (Except.ok (Value.list []), cache, 1, lang2)
        else
          match searchLoop client limit raw 0 false [] 0 with
          | Except.ok (res, c) =>
            (Except.ok (Value.list res), cache.set cache_key (Value.list res),
              1 + c, lang2)
          | Except.error (e, showBound, c) =>
            if isClientErr e then
              if showBound then (Except.ok (Value.bool false), cache, 1 + c, lang2)
              else (Except.error PyErr.unboundLocal, cache, 1 + c, lang2)
            else (Except.error e, cache, 1 + c, lang2)

/-- Extract the entries of an `.ok` dict result (for stating record lookups). -/
def recLookup : Except PyErr Value → String → Option Value
  | Except.ok (Value.dict d), k => lookupKey d k
  | _, _ => Option.none

/-- Length of a list value (`0` otherwise); a discriminator for inequalities. -/
def vLen : Value → Nat
  | Value.list l => l.length
  | _ => 0

/-- A concrete raw show: Breaking Bad, with no seasons loaded. -/
def demoShow : RawShow :=
  { id := some "81189", seriesname := some "Breaking Bad",
    firstaired := some "2008-01-20" }

/-- A concrete search summary for `demoShow` (no alias names). -/
def demoSR : SearchResult := ⟨81189, "Breaking Bad", Option.none⟩

/-- A concrete client that finds `demoSR` by name and returns `demoShow` for
every id lookup. -/
def demoClient : Client :=
  { searchFn := fun _ => Except.ok [demoSR],
    getFn := fun _ => Except.ok demoShow }

/-- The record `_parseShow` produces for `demoShow` (falsy fields omitted). -/
def demoParsedEntries : List (String × Value) :=
  [ ("id", Value.int 81189),
    ("type", Value.str "show"),
    ("primary_provider", Value.str "thetvdb"),
    ("titles", Value.list [Value.str "Breaking Bad"]),
    ("original_title", Value.str "Breaking Bad"),
    ("images", Value.dict
      [("poster", Value.list []),
       ("backdrop", Value.list []),
       ("poster_original", Value.list []),
       ("backdrop_original", Value.list [])]),
    ("year", Value.int 2008),
    ("firstaired", Value.str "2008-01-20"),
    ("released", Value.str "2008-01-20") ]

/-- A concrete episode with id `"100"`. -/
def demoEp : RawEpisode := { id := "100", episodename := some "Pilot" }

/-- A show with a single season holding the single episode `demoEp`. -/
def epDemoShow : RawShow :=
  { id := some "81189", seriesname := some "Breaking Bad",
    seasons := [(1, [demoEp])] }

/-- A client returning `epDemoShow` (and no search results). -/
def epDemoClient : Client :=
  { searchFn := fun _ => Except.ok [],
    getFn := fun _ => Except.ok epDemoShow }

/-- The entries `_parseEpisode` produces for `demoEp` in `epDemoShow`. -/
def epParsedEntries : List (String × Value) :=
    [ ("id", Value.int 100),
      ("type", Value.str "episode"),
      ("primary_provider", Value.str "thetvdb"),
      ("via_thetvdb", Value.bool true),
      ("thetvdb_id", Value.int 100),
      ("titles", Value.list [Value.str "Pilot"]),
      ("original_title", Value.str "Pilot"),
      ("images", Value.dict
        [("poster", Value.list []),
         ("backdrop", Value.list []),
         ("poster_original", Value.list []),
         ("backdrop_original", Value.list [])]),
      ("plot", Value.str "Breaking Bad - ?x? - "),
      ("parent_identifier", Value.str "81189") ]

/-- The record `_parseEpisode` produces for `demoEp` in `epDemoShow`. -/
def epDemoParsed : Value := Value.dict epParsedEntries

/-- The entries `_parseSeason` produces for season 1 of `seasonedShow`. -/
def seasonParsedEntries : List (String × Value) :=
    [ ("id", Value.str "81189:1"),
      ("type", Value.str "season"),
      ("primary_provider", Value.str "thetvdb"),
      ("titles", Value.list [Value.str "Breaking Bad - Season 1"]),
      ("original_title", Value.str "Breaking Bad - Season 1"),
      ("via_thetvdb", Value.bool true),
      ("parent_identifier", Value.str "81189"),
      ("seasonnumber", Value.str "1"),
      ("images", Value.dict
        [("poster", Value.list []),
         ("backdrop", Value.list []),
         ("poster_original", Value.list []),
         ("backdrop_original", Value.list [])]) ]

/-- A client whose id lookup always raises `tvdb_error`. -/
def errClient : Client :=
  { searchFn := fun _ => Except.ok [],
    getFn := fun _ => Except.error PyErr.tvdbError }

/-- A show with genre string `"|A||B|"` (interior empty segment after strip). -/
def genreShow : RawShow := { id := some "5", genre := some "|A||B|" }

/-- A client whose alias search finds nothing, returning `genreShow` by id. -/
def noAliasClient : Client :=
  { searchFn := fun _ => Except.ok [],
    getFn := fun _ => Except.ok genreShow }

/-- A show with two (empty) seasons, numbers 1 and 2. -/
def seasonedShow : RawShow :=
  { id := some "81189", seriesname := some "Breaking Bad",
    seasons := [(1, []), (2, [])] }

/-- A client returning `seasonedShow` (and no search results). -/
def seasonedClient : Client :=
  { searchFn := fun _ => Except.ok [],
    getFn := fun _ => Except.ok seasonedShow }

/-- A client whose name search finds two summaries, each resolving to
`demoShow`. -/
def twoResClient : Client :=
  { searchFn := fun o =>
      if o = some "Breaking Bad" then Except.ok []
      else Except.ok [demoSR, ⟨81190, "Breaking Bad 2", Option.none⟩],
    getFn := fun _ => Except.ok demoShow }

/-- C1: the claim says an empty API key makes every public operation return the
failure sentinel without any external client call.  In the code `isDisabled`
evaluates `True`/`False` without returning them, so it returns `None` (falsy)
and the guard `if self.isDisabled(): return False` in `search` never fires:
with an empty key, `search` still makes 3 client calls and returns the parsed
result list.  `getShowInfo` (like `getSeasonInfo` and `getEpisodeInfo`) never
consults `isDisabled` at all and makes 2 client calls. -/
theorem c1_empty_key_not_refused :
    truthy (isDisabled "") = false ∧
    (search demoClient "" ["en"] "en" emptyCache "breaking bad" 12 "en").2.2.1 = 3 ∧
    (search demoClient "" ["en"] "en" emptyCache "breaking bad" 12 "en").1 =
      Except.ok (Value.list [Value.dict demoParsedEntries]) ∧
    (getShowInfo demoClient emptyCache (some "81189")).2.2 = 2 ∧
    (getShowInfo demoClient emptyCache (some "81189")).1 =
      Except.ok (Value.dict demoParsedEntries) :=
  ⟨rfl, rfl, rfl, rfl, rfl⟩

/-- C3 (claim false on the code): when the client raises a client-level error
(`tvdb_error`) during the show lookup, the `except` handlers of
`getSeasonInfo` and `getEpisodeInfo` evaluate the local variable `show` that
the failed `try` never assigned, so an `UnboundLocalError` escapes the
operation instead of a falsy sentinel being returned. -/
theorem c3_client_error_escapes :
    (getSeasonInfo errClient emptyCache (some "81189") Option.none).1 =
      Except.error PyErr.unboundLocal ∧
    (getEpisodeInfo errClient emptyCache (some "81189") Option.none Option.none).1 =
      Except.error PyErr.unboundLocal :=
  ⟨rfl, rfl⟩

/-- C2 counterexample: `getEpisodeInfo` with episode selector `"999"` matching
no episode of the show (its only episode has id `"100"`) returns the full list
of parsed episodes, not the empty list the claim predicts. -/
theorem c2_counterexample :
    (getEpisodeInfo epDemoClient emptyCache (some "81189") Option.none
        (some "999")).1 = Except.ok (Value.list [epDemoParsed]) ∧
    Value.list [epDemoParsed] ≠ Value.list [] :=
  ⟨rfl, fun h => absurd (congrArg vLen h) (by decide)⟩

/-- C5 counterexample: `getSeasonInfo` on a show with no seasons stores its
result (the empty list) in the cache, yet the second identical call still
makes one client call, because the falsy cached value is treated as a miss. -/
theorem c5_counterexample :
    ((getSeasonInfo demoClient emptyCache (some "81189") Option.none).2.1).get
        (seasonCacheKey "81189" SeasonSel.noneVal) = some (Value.list []) ∧
    (getSeasonInfo demoClient
        (getSeasonInfo demoClient emptyCache (some "81189") Option.none).2.1
        (some "81189") Option.none).2.2 = 1 :=
  ⟨rfl, rfl⟩

/-- C7 counterexample: for genre string `"|A||B|"`, `strip('|')` removes only
the outer pipes, so the split keeps the interior empty segment:
`genres = ["A", "", "B"]`, not the `["A", "B"]` the claim predicts. -/
theorem c7_counterexample :
    recLookup (parseShow noAliasClient genreShow).1 "genres" =
      some (Value.list [Value.str "A", Value.str "", Value.str "B"]) ∧
    Value.list [Value.str "A", Value.str "", Value.str "B"] ≠
      Value.list [Value.str "A", Value.str "B"] :=
  ⟨rfl, fun h => absurd (congrArg vLen h) (by decide)⟩

/-- C8: the cache keys are built by bare string interpolation, so distinct
operations can build the identical key: `search("81189", limit=1)` and
`getSeasonInfo("81189", season_identifier="showx:1")` both build
`"thetvdb.cache.81189.1"`, and `getSeasonInfo` happily returns a value that a
`search` call cached under that key. -/
theorem c8_cache_key_collision :
    searchCacheKey "81189" 1 = seasonCacheKey "81189" (SeasonSel.num 1) ∧
    seasonSelParse (some "showx:1") = Except.ok (SeasonSel.num 1) ∧
    (getSeasonInfo demoClient
        (emptyCache.set (searchCacheKey "81189" 1)
          (Value.list [Value.str "cached-by-search"]))
        (some "81189") (some "showx:1")).1 =
      Except.ok (Value.list [Value.str "cached-by-search"]) :=
  ⟨rfl, rfl, rfl⟩

/-- Entries surviving the truthiness filter are truthy. -/
theorem mem_filterTruthy {p : String × Value} {l : List (String × Value)}
    (h : p ∈ filterTruthy l) : truthy p.2 = true :=
  (List.mem_filter.mp h).2

/-- Appending strings to a truthy value keeps it truthy. -/
theorem truthy_listAppendStrs {v : Value} {ns : List String} (h : truthy v = true) :
    truthy (listAppendStrs v ns) = true := by
  cases v with
  | list l =>
    cases l with
    | nil => simp [truthy, List.isEmpty] at h
    | cons a as => simp [listAppendStrs, truthy, List.isEmpty]
  | str s => exact h
  | int n => exact h
  | bool b => exact h
  | none => exact h
  | dict d => exact h

/-- `appendTitles` preserves all-truthiness of a record. -/
theorem appendTitles_truthy {rec : List (String × Value)} (ns : List String)
    (hall : ∀ p ∈ rec, truthy p.2 = true) :
    ∀ p ∈ appendTitles rec ns, truthy p.2 = true := by
  intro p hp
  obtain ⟨q, hq, hpq⟩ := List.mem_map.mp hp
  by_cases hk : (q.1 == "titles") = true
  · rw [if_pos hk] at hpq
    rw [← hpq]
    exact truthy_listAppendStrs (hall q hq)
  · rw [if_neg hk] at hpq
    rw [← hpq]
    exact hall q hq

/-- `aliasFold` preserves all-truthiness of a record. -/
theorem aliasFold_truthy :
    ∀ (infos : List SearchResult) (rec rec2 : List (String × Value)),
      aliasFold rec infos = Except.ok rec2 →
      (∀ p ∈ rec, truthy p.2 = true) → ∀ p ∈ rec2, truthy p.2 = true := by
  intro infos
  induction infos with
  | nil =>
    intro rec rec2 h hall
    simp only [aliasFold, Except.ok.injEq] at h
    exact h ▸ hall
  | cons si rest ih =>
    intro rec rec2 h hall
    rw [aliasFold] at h
    cases hl : lookupKey rec "id" with
    | none => simp [hl] at h
    | some v =>
      simp only [hl] at h
      by_cases hc : (eqIntValue si.id v && optTruthy si.aliasnames) = true
      · rw [if_pos hc] at h
        exact ih _ _ h (appendTitles_truthy _ hall)
      · rw [if_neg hc] at h
        exact ih _ _ h hall

/-- C4: every key of a record produced by the mapping functions
(`_parseShow`, `_parseSeason`, `_parseEpisode`) carries a truthy value —
falsy fields are omitted by the final filter, and the alias-title harvesting
of `_parseShow` only ever appends to the (truthy) `titles` list. -/
theorem c4_falsy_fields_omitted :
    (∀ (client : Client) (sh : RawShow) (rec : List (String × Value)) (n : Nat),
        parseShow client sh = (Except.ok (Value.dict rec), n) →
        ∀ p ∈ rec, truthy p.2 = true) ∧
    (∀ (sh : RawShow) (number : Int) (rec : List (String × Value)),
        parseSeason sh number = Value.dict rec →
        ∀ p ∈ rec, truthy p.2 = true) ∧
    (∀ (sh : RawShow) (ep : RawEpisode) (rec : List (String × Value)),
        parseEpisode sh ep = Value.dict rec →
        ∀ p ∈ rec, truthy p.2 = true) := by
  refine ⟨?_, ?_, ?_⟩
  · intro client sh rec n h p hp
    rw [parseShow] at h
    cases hs : client.searchFn sh.seriesname with
    | error e =>
      simp only [hs] at h
      by_cases hce : isClientErr e = true
      · rw [if_pos hce] at h
        simp only [Prod.mk.injEq, Except.ok.injEq, Value.dict.injEq] at h
        obtain ⟨h1, -⟩ := h
        subst h1
        exact mem_filterTruthy hp
      · rw [if_neg hce] at h
        simp only [Prod.mk.injEq] at h
        exact absurd h.1 (by simp)
    | ok raw =>
      simp only [hs] at h
      by_cases hre : raw.isEmpty = true
      · rw [if_pos hre] at h
        simp only [Prod.mk.injEq, Except.ok.injEq, Value.dict.injEq] at h
        obtain ⟨h1, -⟩ := h
        subst h1
        exact mem_filterTruthy hp
      · rw [if_neg hre] at h
        cases ha : aliasFold (filterTruthy (parseShowBase sh)) raw with
        | ok rec3 =>
          simp only [ha, Prod.mk.injEq, Except.ok.injEq, Value.dict.injEq] at h
          obtain ⟨h1, -⟩ := h
          subst h1
          exact aliasFold_truthy raw _ _ ha
            (fun q hq => mem_filterTruthy hq) p hp
        | error e =>
          simp only [ha, Prod.mk.injEq] at h
          exact absurd h.1 (by simp)
  · intro sh number rec h p hp
    rw [parseSeason] at h
    simp only [Value.dict.injEq] at h
    subst h
    exact mem_filterTruthy hp
  · intro sh ep rec h p hp
    rw [parseEpisode] at h
    simp only [Value.dict.injEq] at h
    subst h
    exact mem_filterTruthy hp

/-- Witness for C4: instantiating each conjunct at a concrete record entry. -/
theorem c4_falsy_fields_omitted_witness :
    truthy (Value.int 81189) = true ∧ truthy (Value.str "81189:1") = true ∧
    truthy (Value.int 100) = true :=
  ⟨c4_falsy_fields_omitted.1 demoClient demoShow demoParsedEntries 1 rfl
      ("id", Value.int 81189) (List.mem_cons_self _ _),
   c4_falsy_fields_omitted.2.1 seasonedShow 1 seasonParsedEntries rfl
      ("id", Value.str "81189:1") (List.mem_cons_self _ _),
   c4_falsy_fields_omitted.2.2 epDemoShow demoEp epParsedEntries rfl
      ("id", Value.int 100) (List.mem_cons_self _ _)⟩

/-- A composite id `a ++ ":" ++ b` is never the empty string. -/
theorem compositeId_ne_empty (a b : String) : a ++ ":" ++ b ≠ "" := by
  intro h
  have h2 : (a ++ ":" ++ b).data = ("" : String).data := by rw [h]
  simp [String.data_append] at h2

/-- If the selector number occurs among the season numbers, the season loop
returns the single parsed matching season early. -/
theorem seasonLoop_match (sh : RawShow) (n : Int) :
    ∀ (seasons : List (Int × List RawEpisode)) (acc : List Value),
      n ∈ seasons.map Prod.fst →
      seasonLoop sh (SeasonSel.num n) seasons acc =
        Except.error (parseSeason sh n) := by
  intro seasons
  induction seasons with
  | nil => intro acc h; simp at h
  | cons p rest ih =>
    intro acc h
    obtain ⟨number, eps⟩ := p
    rw [seasonLoop]
    by_cases hm : (number == n) = true
    · have hc : (selIsNotNone (SeasonSel.num n)
          && selEq (SeasonSel.num n) number) = true := by
        simp [selIsNotNone, selEq, hm]
      rw [if_pos hc, eq_of_beq hm]
    · have hc : ¬ ((selIsNotNone (SeasonSel.num n)
          && selEq (SeasonSel.num n) number) = true) := by
        simp [selIsNotNone, selEq, hm]
      rw [if_neg hc]
      apply ih
      simp only [List.map_cons, List.mem_cons] at h
      rcases h with h | h
      · exact absurd (beq_iff_eq.mpr h.symm) (by simp [hm])
      · exact h

/-- If no season passes the selector test, the season loop appends every
season's parsed record. -/
theorem seasonLoop_nomatch (sh : RawShow) (ss : SeasonSel) :
    ∀ (seasons : List (Int × List RawEpisode)) (acc : List Value),
      (∀ p ∈ seasons, (selIsNotNone ss && selEq ss p.1) = false) →
      seasonLoop sh ss seasons acc =
        Except.ok (acc ++ seasons.map (fun p => parseSeason sh p.1)) := by
  intro seasons
  induction seasons with
  | nil => intro acc h; simp [seasonLoop]
  | cons p rest ih =>
    intro acc h
    obtain ⟨number, eps⟩ := p
    rw [seasonLoop]
    have hc : ¬ ((selIsNotNone ss && selEq ss number) = true) := by
      have := h (number, eps) (List.mem_cons_self _ _)
      simp_all
    rw [if_neg hc]
    rw [ih _ (fun q hq => h q (List.mem_cons_of_mem _ hq))]
    simp

/-- Unfolding `getSeasonInfo` through a successful cache-missed lookup, down to
the season loop. -/
theorem getSeasonInfo_miss_unfold :
    ∀ (client : Client) (cache : Cache) (idf sel : String) (ss : SeasonSel)
      (m : Int) (sh : RawShow),
      idf ≠ "" →
      seasonSelParse (some sel) = Except.ok ss →
      cache.get (seasonCacheKey idf ss) = Option.none →
      pyInt? idf = some m →
      client.getFn m = Except.ok sh →
      getSeasonInfo client cache (some idf) (some sel) =
        (match seasonLoop sh ss sh.seasons [] with
         | Except.error single =>
            (Except.ok single, cache.set (seasonCacheKey idf ss) single, 1)
         | Except.ok lst =>
            (Except.ok (Value.list lst),
              cache.set (seasonCacheKey idf ss) (Value.list lst), 1)) := by
  intro client cache idf sel ss m sh hid hparse hmiss hint hget
  rw [getSeasonInfo]
  have hidt : optTruthy (some idf) = true := by simp [optTruthy, hid]
  rw [hidt]
  simp only [Bool.not_true, Bool.false_eq_true, if_false, pyOrEmpty]
  rw [hparse]
  simp only [cacheOrEmptyDict, hmiss]
  simp only [truthy, List.isEmpty, Bool.not_true, Bool.false_eq_true, if_false]
  simp only [hint, hget]

/-- The parsed season record contains an `id` entry equal to
`show['id'] + ':' + str(number)`. -/
theorem parseSeason_id_entry (sh : RawShow) (n : Int) (showId : String)
    (hshid : sh.id = some showId) :
    ∃ entries, parseSeason sh n = Value.dict entries ∧
      ("id", Value.str (showId ++ ":" ++ toString n)) ∈ entries := by
  rw [parseSeason, hshid]
  refine ⟨_, rfl, ?_⟩
  apply List.mem_filter.mpr
  refine ⟨List.mem_cons_self _ _, ?_⟩
  show truthy (Value.str (showId ++ ":" ++ toString n)) = true
  have hne : ((showId ++ ":" ++ toString n) == "") = false :=
    beq_eq_false_iff_ne.mpr (compositeId_ne_empty _ _)
  simp [truthy, hne]

/-- C6: `getSeasonInfo` with a composite selector `showId:seasonNumber` whose
numeric part matches one of the show's season numbers returns the single
matching season record — a dict, not a list — whose `id` field equals the
composite string. -/
theorem c6_selector_returns_single_season :
    ∀ (client : Client) (cache : Cache) (idf showId : String) (n m : Int)
      (sh : RawShow),
      idf ≠ "" →
      seasonSelParse (some (showId ++ ":" ++ toString n)) =
        Except.ok (SeasonSel.num n) →
      cache.get (seasonCacheKey idf (SeasonSel.num n)) = Option.none →
      pyInt? idf = some m →
      client.getFn m = Except.ok sh →
      sh.id = some showId →
      n ∈ sh.seasons.map Prod.fst →
      ∃ entries,
        (getSeasonInfo client cache (some idf)
            (some (showId ++ ":" ++ toString n))).1 =
          Except.ok (Value.dict entries) ∧
        ("id", Value.str (showId ++ ":" ++ toString n)) ∈ entries := by
  intro client cache idf showId n m sh hid hparse hmiss hint hget hshid hmem
  obtain ⟨entries, hpe, hmement⟩ := parseSeason_id_entry sh n showId hshid
  refine ⟨entries, ?_, hmement⟩
  rw [getSeasonInfo_miss_unfold client cache idf _ (SeasonSel.num n) m sh hid
    hparse hmiss hint hget]
  rw [seasonLoop_match sh n sh.seasons [] hmem]
  simp [hpe]

/-- Witness for C6 at a concrete show with seasons 1 and 2. -/
theorem c6_witness :
    (getSeasonInfo seasonedClient emptyCache (some "81189") (some "81189:1")).1 =
      Except.ok (Value.dict seasonParsedEntries) ∧
    ("id", Value.str "81189:1") ∈ seasonParsedEntries := by
  obtain ⟨e, h1, h2⟩ := c6_selector_returns_single_season seasonedClient emptyCache
    "81189" "81189" 1 81189 seasonedShow (by decide) rfl rfl rfl rfl rfl (by decide)
  have hr : (getSeasonInfo seasonedClient emptyCache (some "81189")
      (some ("81189" ++ ":" ++ toString (1 : Int)))).1 =
      Except.ok (Value.dict seasonParsedEntries) := rfl
  rw [hr] at h1
  have he : seasonParsedEntries = e := Value.dict.inj (Except.ok.inj h1)
  subst he
  exact ⟨hr, h2⟩

/-- C9: `getSeasonInfo` with a composite selector whose numeric part parses
but matches none of the show's season numbers returns the list of all parsed
seasons (each non-matching season is appended), not an empty sentinel. -/
theorem c9_nonmatching_selector_returns_all_seasons :
    ∀ (client : Client) (cache : Cache) (idf sel : String) (n m : Int)
      (sh : RawShow),
      idf ≠ "" →
      seasonSelParse (some sel) = Except.ok (SeasonSel.num n) →
      cache.get (seasonCacheKey idf (SeasonSel.num n)) = Option.none →
      pyInt? idf = some m →
      client.getFn m = Except.ok sh →
      n ∉ sh.seasons.map Prod.fst →
      (getSeasonInfo client cache (some idf) (some sel)).1 =
        Except.ok (Value.list (sh.seasons.map (fun p => parseSeason sh p.1))) := by
  intro client cache idf sel n m sh hid hparse hmiss hint hget hnmem
  rw [getSeasonInfo_miss_unfold client cache idf sel (SeasonSel.num n) m sh hid
    hparse hmiss hint hget]
  have hall : ∀ p ∈ sh.seasons,
      (selIsNotNone (SeasonSel.num n) && selEq (SeasonSel.num n) p.1) = false := by
    intro p hp
    simp only [selIsNotNone, selEq, Bool.true_and]
    refine beq_eq_false_iff_ne.mpr (fun hEq => hnmem ?_)
    exact hEq ▸ List.mem_map_of_mem Prod.fst hp
  rw [seasonLoop_nomatch sh (SeasonSel.num n) sh.seasons [] hall]
  simp

/-- Witness for C9: selector `"81189:99"` matches neither season of the
two-season show. -/
theorem c9_witness :
    (getSeasonInfo seasonedClient emptyCache (some "81189") (some "81189:99")).1 =
      Except.ok (Value.list (seasonedShow.seasons.map
        (fun p => parseSeason seasonedShow p.1))) :=
  c9_nonmatching_selector_returns_all_seasons seasonedClient emptyCache "81189"
    "81189:99" 99 81189 seasonedShow (by decide) rfl rfl rfl rfl (by decide)

/-- The episodes the `getEpisodeInfo` loops iterate over: all episodes of the
seasons passing the season-selector test, in order. -/
def episodesOf (sh : RawShow) (ss : SeasonSel) : List RawEpisode :=
  ((sh.seasons.filter (fun p => !(selIsNotNone ss && !selEq ss p.1))).map
    Prod.snd).flatten

/-- If no episode's id equals the selector, the inner episode loop appends
every parsed episode. -/
theorem epInner_nomatch (sh : RawShow) (s : String) :
    ∀ (eps : List RawEpisode) (acc : List Value),
      (∀ ep ∈ eps, (ep.id == toUnicode s) = false) →
      epInner sh (some s) eps acc =
        Except.ok (acc ++ eps.map (parseEpisode sh)) := by
  intro eps
  induction eps with
  | nil => intro acc h; simp [epInner]
  | cons ep rest ih =>
    intro acc h
    rw [epInner]
    have hne : ¬ ((ep.id == toUnicode s) = true) := by
      simp [h ep (List.mem_cons_self _ _)]
    rw [if_neg hne]
    rw [ih _ (fun q hq => h q (List.mem_cons_of_mem _ hq))]
    simp

/-- If no episode of any kept season matches the selector, the outer loop
returns all parsed episodes of the kept seasons. -/
theorem episodeLoop_nomatch (sh : RawShow) (ss : SeasonSel) (s : String) :
    ∀ (seasons : List (Int × List RawEpisode)) (acc : List Value),
      (∀ p ∈ seasons, (selIsNotNone ss && !selEq ss p.1) = false →
        ∀ ep ∈ p.2, (ep.id == toUnicode s) = false) →
      episodeLoop sh ss (some s) seasons acc =
        Except.ok (acc ++
          (((seasons.filter (fun p => !(selIsNotNone ss && !selEq ss p.1))).map
            Prod.snd).flatten).map (parseEpisode sh)) := by
  intro seasons
  induction seasons with
  | nil => intro acc h; simp [episodeLoop]
  | cons p rest ih =>
    intro acc h
    obtain ⟨number, eps⟩ := p
    rw [episodeLoop]
    by_cases hc : (selIsNotNone ss && !selEq ss number) = true
    · rw [if_pos hc]
      rw [ih _ (fun q hq => h q (List.mem_cons_of_mem _ hq))]
      rw [List.filter_cons]
      have : (!(selIsNotNone ss && !selEq ss (number, eps).1)) = false := by
        simp [hc]
      rw [this]
      simp
    · rw [if_neg hc]
      have hcf : (selIsNotNone ss && !selEq ss number) = false := by
        simp only [Bool.not_eq_true] at hc
        exact hc
      simp only [epInner_nomatch sh s eps acc
        (h (number, eps) (List.mem_cons_self _ _) hcf)]
      rw [ih _ (fun q hq => h q (List.mem_cons_of_mem _ hq))]
      rw [List.filter_cons]
      have : (!(selIsNotNone ss && !selEq ss (number, eps).1)) = true := by
        simp [hcf]
      rw [this]
      simp

/-- C2 (amended): `getEpisodeInfo` with an episode selector matching no
episode in the (optionally season-filtered) set returns the list of all
parsed episodes of that set — the empty list exactly when the set is empty —
not the failure sentinel. -/
theorem c2_amended_nonmatching_selector_returns_all :
    ∀ (client : Client) (cache : Cache) (idf : String) (ssel : Option String)
      (idf2 : Option String) (ss : SeasonSel) (s : String) (m : Int)
      (sh : RawShow),
      idf ≠ "" →
      epSelSplit (some idf) ssel = Except.ok (idf2, ss) →
      cache.get (episodeCacheKey idf2 (some s) ss) = Option.none →
      pyIntOfOpt idf2 = Except.ok m →
      client.getFn m = Except.ok sh →
      (∀ p ∈ sh.seasons, (selIsNotNone ss && !selEq ss p.1) = false →
        ∀ ep ∈ p.2, (ep.id == toUnicode s) = false) →
      (getEpisodeInfo client cache (some idf) ssel (some s)).1 =
        Except.ok (Value.list ((episodesOf sh ss).map (parseEpisode sh))) := by
  intro client cache idf ssel idf2 ss s m sh hid hsplit hmiss hpint hget hno
  rw [getEpisodeInfo]
  have hidt : optTruthy (some idf) = true := by simp [optTruthy, hid]
  rw [hidt]
  simp only [Bool.not_true, Bool.false_and, Bool.false_eq_true, if_false]
  rw [hsplit]
  simp only [cacheOrEmptyDict, hmiss]
  simp only [truthy, List.isEmpty, Bool.not_true, Bool.false_eq_true, if_false]
  simp only [hpint, hget]
  rw [episodeLoop_nomatch sh ss s sh.seasons [] hno]
  simp [episodesOf]

/-- Witness for C2 (amended): selector `"999"` matches no episode of the
one-episode show, and the full one-element episode list is returned. -/
theorem c2_amended_witness :
    (getEpisodeInfo epDemoClient emptyCache (some "81189") Option.none
        (some "999")).1 =
      Except.ok (Value.list ((episodesOf epDemoShow SeasonSel.noneVal).map
        (parseEpisode epDemoShow))) :=
  c2_amended_nonmatching_selector_returns_all epDemoClient emptyCache "81189"
    Option.none (some "81189") SeasonSel.noneVal "999" 81189 epDemoShow
    (by decide) rfl rfl rfl rfl (by decide)

/-- `isDisabled` returns `None` (falsy) for every API key, including the empty
one: neither branch of the Python function returns its boolean. -/
theorem truthy_isDisabled (api_key : String) : truthy (isDisabled api_key) = false := by
  rw [isDisabled]
  split <;> rfl

/-- With a non-positive limit the loop counter, which starts at 1 after the
first increment, never equals the limit, so the search loop consumes every raw
result. -/
theorem searchLoop_length (client : Client) (limit : Int) (hlim : limit ≤ 0) :
    ∀ (raw : List SearchResult) (nr : Int) (sb : Bool) (acc : List Value)
      (calls : Nat) (res : List Value) (c : Nat),
      0 ≤ nr →
      searchLoop client limit raw nr sb acc calls = Except.ok (res, c) →
      res.length = acc.length + raw.length := by
  intro raw
  induction raw with
  | nil =>
    intro nr sb acc calls res c hnr h
    simp only [searchLoop, Except.ok.injEq, Prod.mk.injEq] at h
    rw [← h.1]
    simp
  | cons si rest ih =>
    intro nr sb acc calls res c hnr h
    rw [searchLoop] at h
    cases hg : client.getFn si.id with
    | error e => simp [hg] at h
    | ok sh =>
      simp only [hg] at h
      cases hp : parseShow client sh with
      | mk pr pc =>
        cases pr with
        | error e => simp [hp] at h
        | ok v =>
          simp only [hp] at h
          have hne : ((nr + 1 : Int) == limit) = false := by
            refine beq_eq_false_iff_ne.mpr (fun hEq => ?_)
            omega
          simp only [hne, Bool.false_eq_true, if_false] at h
          have hrec := ih (nr + 1) true (acc ++ [v]) (calls + 1 + pc) res c
            (by omega) h
          rw [hrec]
          simp
          omega

/-- C10: `search` with `limit <= 0` never truncates — the counter `nr` is
compared to `limit` only after being incremented from 1 upward, so every raw
search result is fetched and normalized (rather than zero of them). -/
theorem c10_nonpositive_limit_not_truncated :
    ∀ (client : Client) (api_key : String) (vl : List String) (pl : String)
      (cache : Cache) (q : String) (limit : Int) (lang : String)
      (raw : List SearchResult) (res : List Value) (c : Nat),
      limit ≤ 0 →
      cache.get (searchCacheKey q limit) = Option.none →
      client.searchFn (some (simplifyString q)) = Except.ok raw →
      raw ≠ [] →
      searchLoop client limit raw 0 false [] 0 = Except.ok (res, c) →
      (search client api_key vl pl cache q limit lang).1 =
        Except.ok (Value.list res) ∧
      res.length = raw.length := by
  intro client api_key vl pl cache q limit lang raw res c hlim hmiss hsf hraw hloop
  constructor
  · rw [search]
    rw [truthy_isDisabled]
    simp only [Bool.false_eq_true, if_false]
    simp only [hmiss]
    simp only [Bool.false_eq_true, if_false]
    simp only [hsf]
    have hre : raw.isEmpty = false := by
      cases raw with
      | nil => exact absurd rfl hraw
      | cons a l => rfl
    simp only [hre, Bool.false_eq_true, if_false]
    simp only [hloop]
  · have hlen := searchLoop_length client limit hlim raw 0 false [] 0 res c
      (by omega) hloop
    simpa using hlen

/-- Witness for C10: limit `0` with two raw results yields two records. -/
theorem c10_witness :
    (search twoResClient "" ["en"] "en" emptyCache "breaking bad" 0 "en").1 =
      Except.ok (Value.list [Value.dict demoParsedEntries,
        Value.dict demoParsedEntries]) ∧
    ([Value.dict demoParsedEntries, Value.dict demoParsedEntries] :
      List Value).length =
      ([demoSR, ⟨81190, "Breaking Bad 2", Option.none⟩] :
        List SearchResult).length :=
  c10_nonpositive_limit_not_truncated twoResClient "" ["en"] "en" emptyCache
    "breaking bad" 0 "en" [demoSR, ⟨81190, "Breaking Bad 2", Option.none⟩]
    [Value.dict demoParsedEntries, Value.dict demoParsedEntries] 4
    (by omega) rfl rfl (List.cons_ne_nil _ _) rfl

/-- C5 (amended): a second call finds the cache warm only when the stored
value is truthy.  With a truthy value under the operation's cache key, every
lookup operation returns exactly the cached value, leaves the cache unchanged
and makes no client call; a falsy stored value (such as the empty list) is
instead treated as a miss, so the client is invoked again
(see the counterexample). -/
theorem c5_amended_truthy_cache_hit :
    (∀ (client : Client) (ak : String) (vl : List String) (pl : String)
        (cache : Cache) (q : String) (limit : Int) (lang : String) (v : Value),
        cache.get (searchCacheKey q limit) = some v → truthy v = true →
        (search client ak vl pl cache q limit lang).1 = Except.ok v ∧
        (search client ak vl pl cache q limit lang).2.1 = cache ∧
        (search client ak vl pl cache q limit lang).2.2.1 = 0) ∧
    (∀ (client : Client) (cache : Cache) (idf : String) (v : Value),
        idf ≠ "" →
        cache.get (showCacheKey idf) = some v → truthy v = true →
        getShowInfo client cache (some idf) = (Except.ok v, cache, 0)) ∧
    (∀ (client : Client) (cache : Cache) (idf sel : String) (ss : SeasonSel)
        (v : Value),
        idf ≠ "" →
        seasonSelParse (some sel) = Except.ok ss →
        cache.get (seasonCacheKey idf ss) = some v → truthy v = true →
        getSeasonInfo client cache (some idf) (some sel) =
          (Except.ok v, cache, 0)) ∧
    (∀ (client : Client) (cache : Cache) (identifier ssel epsel : Option String)
        (idf2 : Option String) (ss : SeasonSel) (v : Value),
        (!optTruthy identifier && ssel.isNone) = false →
        epSelSplit identifier ssel = Except.ok (idf2, ss) →
        cache.get (episodeCacheKey idf2 epsel ss) = some v → truthy v = true →
        getEpisodeInfo client cache identifier ssel epsel =
          (Except.ok v, cache, 0)) := by
  refine ⟨?_, ?_, ?_, ?_⟩
  · intro client ak vl pl cache q limit lang v hget htr
    rw [search, truthy_isDisabled]
    simp [hget, htr]
  · intro client cache idf v hid hget htr
    rw [getShowInfo]
    have hidt : optTruthy (some idf) = true := by simp [optTruthy, hid]
    rw [hidt]
    simp only [Bool.not_true, Bool.false_eq_true, if_false, pyOrEmpty]
    simp only [cacheOrEmptyDict, hget, htr, if_true]
  · intro client cache idf sel ss v hid hparse hget htr
    rw [getSeasonInfo]
    have hidt : optTruthy (some idf) = true := by simp [optTruthy, hid]
    rw [hidt]
    simp only [Bool.not_true, Bool.false_eq_true, if_false, pyOrEmpty]
    rw [hparse]
    simp only [cacheOrEmptyDict, hget, htr, if_true]
  · intro client cache identifier ssel epsel idf2 ss v hguard hsplit hget htr
    rw [getEpisodeInfo]
    rw [hguard]
    simp only [Bool.false_eq_true, if_false]
    rw [hsplit]
    simp only [cacheOrEmptyDict, hget, htr, if_true]

/-- A concrete truthy value to warm caches with. -/
def warmVal : Value := Value.list [Value.str "warm"]

/-- Witness for C5 (amended): each operation applied to a warm truthy cache. -/
theorem c5_amended_witness :
    (search demoClient "" ["en"] "en"
        (emptyCache.set (searchCacheKey "bb" 12) warmVal) "bb" 12 "en").1 =
      Except.ok warmVal ∧
    getShowInfo demoClient (emptyCache.set (showCacheKey "81189") warmVal)
        (some "81189") =
      (Except.ok warmVal, emptyCache.set (showCacheKey "81189") warmVal, 0) ∧
    getSeasonInfo demoClient
        (emptyCache.set (seasonCacheKey "81189" (SeasonSel.num 1)) warmVal)
        (some "81189") (some "81189:1") =
      (Except.ok warmVal,
        emptyCache.set (seasonCacheKey "81189" (SeasonSel.num 1)) warmVal, 0) ∧
    getEpisodeInfo demoClient
        (emptyCache.set (episodeCacheKey (some "81189") (some "7")
          (SeasonSel.num 1)) warmVal)
        (some "81189") (some "81189:1") (some "7") =
      (Except.ok warmVal,
        emptyCache.set (episodeCacheKey (some "81189") (some "7")
          (SeasonSel.num 1)) warmVal, 0) :=
  ⟨(c5_amended_truthy_cache_hit.1 demoClient "" ["en"] "en"
      (emptyCache.set (searchCacheKey "bb" 12) warmVal) "bb" 12 "en" warmVal
      rfl rfl).1,
   c5_amended_truthy_cache_hit.2.1 demoClient
      (emptyCache.set (showCacheKey "81189") warmVal) "81189" warmVal
      (by decide) rfl rfl,
   c5_amended_truthy_cache_hit.2.2.1 demoClient
      (emptyCache.set (seasonCacheKey "81189" (SeasonSel.num 1)) warmVal)
      "81189" "81189:1" (SeasonSel.num 1) warmVal (by decide) rfl rfl rfl,
   c5_amended_truthy_cache_hit.2.2.2 demoClient
      (emptyCache.set (episodeCacheKey (some "81189") (some "7")
        (SeasonSel.num 1)) warmVal)
      (some "81189") (some "81189:1") (some "7") (some "81189")
      (SeasonSel.num 1) warmVal rfl rfl rfl rfl⟩

/-- `splitCharAux` never returns the empty list. -/
theorem splitCharAux_ne_nil (c : Char) : ∀ l : List Char, splitCharAux c l ≠ [] := by
  intro l
  cases l with
  | nil => simp [splitCharAux]
  | cons x xs =>
    rw [splitCharAux]
    by_cases hx : (x == c) = true
    · simp [hx]
    · simp only [hx, Bool.false_eq_true, if_false]
      cases hr : splitCharAux c xs <;> simp

/-- Python `split` never yields the empty list of segments. -/
theorem pySplit_ne_nil (c : Char) (s : String) : pySplit c s ≠ [] := by
  rw [pySplit]
  simp [List.map_eq_nil_iff, splitCharAux_ne_nil]

/-- Looking a key up after the truthiness filter skips entries with other keys. -/
theorem lookupKey_filterTruthy_skip (a : String) (v : Value)
    (l : List (String × Value)) (k : String) (h : (a == k) = false) :
    lookupKey (filterTruthy ((a, v) :: l)) k = lookupKey (filterTruthy l) k := by
  rw [filterTruthy, List.filter_cons]
  by_cases ht : truthy (a, v).2 = true
  · rw [if_pos ht, lookupKey]
    simp only [h, Bool.false_eq_true, if_false]
    rfl
  · rw [if_neg ht]
    rfl

/-- Looking a key up after the truthiness filter finds a truthy head entry. -/
theorem lookupKey_filterTruthy_keep (k : String) (v : Value)
    (l : List (String × Value)) (h : truthy v = true) :
    lookupKey (filterTruthy ((k, v) :: l)) k = some v := by
  rw [filterTruthy, List.filter_cons]
  rw [if_pos h, lookupKey]
  simp

/-- `appendTitles` only rewrites the `titles` entry, so lookups of other keys
are unchanged. -/
theorem lookupKey_appendTitles (ns : List String) (k : String)
    (hk : (k == "titles") = false) :
    ∀ l : List (String × Value), lookupKey (appendTitles l ns) k = lookupKey l k := by
  intro l
  induction l with
  | nil => rfl
  | cons kv rest ih =>
    rw [appendTitles, List.map_cons]
    rw [lookupKey]
    by_cases hkv : (kv.1 == "titles") = true
    · simp only [hkv, if_true]
      have hne : (kv.1 == k) = false := by
        refine beq_eq_false_iff_ne.mpr (fun hEq => ?_)
        rw [← hEq] at hk
        rw [eq_of_beq hkv] at hk
        simp at hk
      rw [lookupKey]
      simp only [hne, Bool.false_eq_true, if_false]
      exact ih
    · simp only [hkv, Bool.false_eq_true, if_false]
      rw [lookupKey]
      by_cases hh : (kv.1 == k) = true
      · simp [hh]
      · simp only [hh, Bool.false_eq_true, if_false]
        exact ih

/-- Alias harvesting does not change any record entry except `titles`. -/
theorem lookupKey_aliasFold (k : String) (hk : (k == "titles") = false) :
    ∀ (infos : List SearchResult) (rec rec2 : List (String × Value)),
      aliasFold rec infos = Except.ok rec2 →
      lookupKey rec2 k = lookupKey rec k := by
  intro infos
  induction infos with
  | nil =>
    intro rec rec2 h
    simp only [aliasFold, Except.ok.injEq] at h
    rw [h]
  | cons si rest ih =>
    intro rec rec2 h
    rw [aliasFold] at h
    cases hl : lookupKey rec "id" with
    | none => simp [hl] at h
    | some v =>
      simp only [hl] at h
      by_cases hc : (eqIntValue si.id v && optTruthy si.aliasnames) = true
      · rw [if_pos hc] at h
        rw [ih _ _ h, lookupKey_appendTitles _ _ hk]
      · rw [if_neg hc] at h
        exact ih _ _ h

/-- In the filtered base show record, `genres` is bound to the pipe-stripped,
pipe-split genre string. -/
theorem lookupKey_parseShowBase_genres (sh : RawShow) (g : String)
    (hg : sh.genre = some g) :
    lookupKey (filterTruthy (parseShowBase sh)) "genres" =
      some (Value.list ((pySplit '|' (pyStripPipe g)).map Value.str)) := by
  rw [parseShowBase]
  simp only [hg]
  rw [lookupKey_filterTruthy_skip "id" _ _ "genres" (by decide)]
  rw [lookupKey_filterTruthy_skip "type" _ _ "genres" (by decide)]
  rw [lookupKey_filterTruthy_skip "primary_provider" _ _ "genres" (by decide)]
  rw [lookupKey_filterTruthy_skip "titles" _ _ "genres" (by decide)]
  rw [lookupKey_filterTruthy_skip "original_title" _ _ "genres" (by decide)]
  rw [lookupKey_filterTruthy_skip "images" _ _ "genres" (by decide)]
  rw [lookupKey_filterTruthy_skip "year" _ _ "genres" (by decide)]
  have hne : ((pySplit '|' (pyStripPipe g)).map Value.str) ≠ [] := by
    simp [List.map_eq_nil_iff, pySplit_ne_nil]
  have ht : truthy (Value.list ((pySplit '|' (pyStripPipe g)).map Value.str))
      = true := by
    cases hm : (pySplit '|' (pyStripPipe g)).map Value.str with
    | nil => exact absurd hm hne
    | cons a l => simp [truthy, List.isEmpty]
  rw [lookupKey_filterTruthy_keep "genres" _ _ ht]

/-- C7 (amended): the normalized record's genre list equals the genre string
split on `'|'` after stripping only leading and trailing `'|'` characters —
interior empty segments (as in `"A||B"`) are retained, not discarded. -/
theorem c7_amended_genres_strip_then_split :
    ∀ (client : Client) (sh : RawShow) (g : String)
      (rec : List (String × Value)) (n : Nat),
      sh.genre = some g →
      parseShow client sh = (Except.ok (Value.dict rec), n) →
      lookupKey rec "genres" =
        some (Value.list ((pySplit '|' (pyStripPipe g)).map Value.str)) := by
  intro client sh g rec n hg hps
  rw [parseShow] at hps
  cases hs : client.searchFn sh.seriesname with
  | error e =>
    simp only [hs] at hps
    by_cases hce : isClientErr e = true
    · rw [if_pos hce] at hps
      simp only [Prod.mk.injEq, Except.ok.injEq, Value.dict.injEq] at hps
      rw [← hps.1]
      exact lookupKey_parseShowBase_genres sh g hg
    · rw [if_neg hce] at hps
      simp only [Prod.mk.injEq] at hps
      exact absurd hps.1 (by simp)
  | ok raw =>
    simp only [hs] at hps
    by_cases hre : raw.isEmpty = true
    · rw [if_pos hre] at hps
      simp only [Prod.mk.injEq, Except.ok.injEq, Value.dict.injEq] at hps
      rw [← hps.1]
      exact lookupKey_parseShowBase_genres sh g hg
    · rw [if_neg hre] at hps
      cases ha : aliasFold (filterTruthy (parseShowBase sh)) raw with
      | ok rec3 =>
        simp only [ha, Prod.mk.injEq, Except.ok.injEq, Value.dict.injEq] at hps
        rw [← hps.1]
        rw [lookupKey_aliasFold "genres" (by decide) raw _ _ ha]
        exact lookupKey_parseShowBase_genres sh g hg
      | error e =>
        simp only [ha, Prod.mk.injEq] at hps
        exact absurd hps.1 (by simp)

/-- The record `_parseShow` produces for `genreShow` (genres keep the interior
empty segment). -/
def genreParsedEntries : List (String × Value) :=
  [ ("id", Value.int 5),
    ("type", Value.str "show"),
    ("primary_provider", Value.str "thetvdb"),
    ("titles", Value.list [Value.str ""]),
    ("images", Value.dict
      [("poster", Value.list []),
       ("backdrop", Value.list []),
       ("poster_original", Value.list []),
       ("backdrop_original", Value.list [])]),
    ("genres", Value.list [Value.str "A", Value.str "", Value.str "B"]) ]

/-- Witness for C7 (amended) at genre string `"|A||B|"`. -/
theorem c7_amended_witness :
    lookupKey genreParsedEntries "genres" =
      some (Value.list ((pySplit '|' (pyStripPipe "|A||B|")).map Value.str)) :=
  c7_amended_genres_strip_then_split noAliasClient genreShow "|A||B|"
    genreParsedEntries 1 rfl rfl
